import Mathlib

/-!
Verification of the NEA electricity-usage polling integration
(`custom_components/nea_electricity_usage/sensor.py`).

The development shallowly embeds the data-normalization pipeline
(`ElectricityUsageCoordinator._process_data`), the fetch classification
(`_async_update_data`), and the refresh cycle of the host framework's
`DataUpdateCoordinator`, and proves the specified properties about them.

JSON values are modelled by the inductive `JVal`.  Python `float` values
produced by `float(...)` are modelled exactly by `PyNum` (a decimal
mantissa/exponent pair): every numeric behaviour the properties mention
(parse success/failure, defaulting to 0, the rebate subtraction) is exact
in this range, so no floating-point rounding is involved.
-/

/-- Exact decimal number: `mant / 10 ^ exp`.  Models the values produced by
Python's `float(...)` on the JSON numbers and numeric strings this API
serves (binary rounding is irrelevant to every property proved here). -/
structure PyNum where
  mant : Int
  exp : Nat
deriving DecidableEq

/-- Decimal subtraction, as produced by the `rebate_amount` computation
`float(item.get("billAmt", 0)) - float(item.get("payableAmount", 0))`. -/
def PyNum.sub (a b : PyNum) : PyNum :=
  ⟨a.mant * (10 : Int) ^ b.exp - b.mant * (10 : Int) ^ a.exp, a.exp + b.exp⟩

/-- An integer-valued decimal. -/
def PyNum.ofInt (n : Int) : PyNum := ⟨n, 0⟩

/-- A JSON value, as returned by `response.json()`. -/
inductive JVal where
  | null
  | bool (b : Bool)
  | num (x : PyNum)
  | str (s : String)
  | arr (xs : List JVal)
  | obj (kvs : List (String × JVal))

/-- Python dictionary access `d.get(key, default)`. -/
def dictGet (kvs : List (String × JVal)) (key : String) (dflt : JVal) : JVal :=
  (List.lookup key kvs).getD dflt

/-- Python truthiness (`if not data.get('data')`). -/
def truthy : JVal → Bool
  | .null => false
  | .bool b => b
  | .num x => !(x.mant == 0)
  | .str s => !(s.data.isEmpty)
  | .arr xs => !xs.isEmpty
  | .obj kvs => !kvs.isEmpty

/-- Whitespace stripped by Python's `int`/`float` string parsing. -/
def isPySpace (c : Char) : Bool :=
  c == ' ' || c == '\t' || c == '\n' || c == '\r'

/-- Strip leading and trailing whitespace from a character list. -/
def trimChars (l : List Char) : List Char :=
  ((l.dropWhile isPySpace).reverse.dropWhile isPySpace).reverse

/-- Numeric value of a digit list (most significant first). -/
def digitsVal (l : List Char) : Nat :=
  l.foldl (fun n c => n * 10 + (c.toNat - 48)) 0

/-- Split off an optional sign, Python style. -/
def splitSign : List Char → Bool × List Char
  | '-' :: rest => (true, rest)
  | '+' :: rest => (false, rest)
  | l => (false, l)

/-- Python `float(s)` on a string: optional sign, digits with at most one
decimal point, at least one digit.  (Exponent, `inf` and `nan` forms do not
occur in this API and are not modelled.)  `none` models `ValueError`. -/
def pyFloatStr (s : String) : Option PyNum :=
  let (neg, u) := splitSign (trimChars s.data)
  let ip := u.takeWhile Char.isDigit
  let rest := u.dropWhile Char.isDigit
  let core : Option (Nat × Nat) :=
    match rest with
    | [] => if ip.isEmpty then none else some (digitsVal ip, 0)
    | '.' :: fp =>
      if fp.all Char.isDigit && (!ip.isEmpty || !fp.isEmpty) then
        some (digitsVal (ip ++ fp), fp.length)
      else none
    | _ => none
  core.map (fun (m, e) => ⟨if neg then -(m : Int) else (m : Int), e⟩)

/-- Python `float(v)` on an arbitrary value: numbers pass through, booleans
coerce, numeric strings parse; everything else raises
`ValueError`/`TypeError`, modelled as `none`. -/
def pyFloat : JVal → Option PyNum
  | .num x => some x
  | .bool b => some ⟨if b then 1 else 0, 0⟩
  | .str s => pyFloatStr s
  | _ => none

/-- Python `int(s)` on a string: optional sign, nonempty digits.  `none`
models `ValueError` (as raised by `int(x["month"].split('/')[1])`). -/
def pyIntStr (s : String) : Option Int :=
  let (neg, u) := splitSign (trimChars s.data)
  if !u.isEmpty && u.all Char.isDigit then
    some (if neg then -(digitsVal u : Int) else (digitsVal u : Int))
  else none

/-- The module-level constant `NEPALI_MONTHS_ORDER`. -/
def NEPALI_MONTHS_ORDER : List String :=
  ["Baisakh", "Jestha", "Ashad", "Shrawan", "Bhadra", "Ashwin",
   "Kartik", "Mangsir", "Poush", "Magh", "Falgun", "Chaitra"]

/-- Split a character list at every `'/'` (Python `s.split('/')`). -/
def splitSlash : List Char → List (List Char)
  | [] => [[]]
  | c :: rest =>
    let r := splitSlash rest
    if c = '/' then [] :: r
    else
      match r with
      | [] => [[c]]
      | h :: t => (c :: h) :: t

/-- Python `'/' in x` for the values a `month` field can hold: substring
test on strings, key test on dicts, membership on lists; `TypeError`
(modelled `none`) on numbers, booleans and `None`. -/
def pySlashTest : JVal → Option Bool
  | .str s => some (s.data.any (fun c => c == '/'))
  | .obj kvs => some (kvs.any (fun p => p.1 == "/"))
  | .arr xs =>
    some (xs.any (fun v => match v with | .str s => s == "/" | _ => false))
  | _ => none

/-- One monthly entry of the normalized record (the dict built at
sensor.py:113-120).  `month` and `status` keep whatever raw value
`item.get` returned, exactly as the Python dict does. -/
structure Entry where
  month : JVal
  status : JVal
  consumed_units : PyNum
  bill_amount : PyNum
  payable_amount : PyNum
  rebate_amount : PyNum

/-- The sort key of sensor.py:127-130:
`(int(month.split('/')[1]) if '/' in month else 0,
  NEPALI_MONTHS_ORDER.index(month.split('/')[0]) if '/' in month else 0)`.
`none` models an exception escaping the key function (caught only by the
outer handler of `_process_data`). -/
def sortKey (m : JVal) : Option (Int × Nat) := do
  let hasSlash ← pySlashTest m
  if hasSlash then
    match m with
    | .str s =>
      let parts := splitSlash s.data
      let y ← pyIntStr (String.mk (parts.getD 1 []))
      let i ← NEPALI_MONTHS_ORDER.findIdx?
        (fun n => n.data == parts.getD 0 [])
      pure (y, i)
    | _ => none
  else
    pure (0, 0)

/-- The key actually used once all keys are known to compute. -/
def entryKey (e : Entry) : Int × Nat := (sortKey e.month).getD (0, 0)

/-- Strict lexicographic order on sort keys (Python tuple `<`). -/
def keyLt (a b : Int × Nat) : Bool :=
  decide (a.1 < b.1) || (decide (a.1 = b.1) && decide (a.2 < b.2))

/-- Non-strict lexicographic order on sort keys. -/
def keyLe (a b : Int × Nat) : Bool :=
  decide (a.1 < b.1) || (decide (a.1 = b.1) && decide (a.2 ≤ b.2))

/-- Insert `x` (an element originally earlier in the list) into an already
sorted suffix, after every element with a strictly smaller key and before
every element with an equal or larger key — the insertion step of a stable
ascending sort, as `list.sort(key=...)` performs. -/
def insertByKey {α : Type} (k : α → Int × Nat) (x : α) : List α → List α
  | [] => [x]
  | y :: ys => if keyLt (k y) (k x) then y :: insertByKey k x ys else x :: y :: ys

/-- Stable ascending sort by key (the behaviour of Python `list.sort(key=...)`:
ascending, ties keep original relative order). -/
def sortByKey {α : Type} (k : α → Int × Nat) : List α → List α
  | [] => []
  | x :: xs => insertByKey k x (sortByKey k xs)

/-- The sorting step of sensor.py:126-130: skipped for an empty list; Python
computes every key before reordering, so one failing key aborts the whole
step (and, through the outer handler, the whole cycle). -/
def sortStep (l : List Entry) : Option (List Entry) :=
  if l.isEmpty then some l
  else if l.all (fun e => (sortKey e.month).isSome) then
    some (sortByKey entryKey l)
  else none

/-- Per-item processing of the loop body sensor.py:112-124.
Outer `none`: a fatal error not caught by the per-item handler (an item
that is not a dict raises `AttributeError` at `item.get`).
Inner `none`: `ValueError`/`TypeError` from one of the `float(...)` calls,
caught at sensor.py:122 — the item is dropped and the loop continues. -/
def processItem : JVal → Option (Option Entry)
  | .obj kvs =>
    some (do
      let cu ← pyFloat (dictGet kvs "consumedUnits" (.num (PyNum.ofInt 0)))
      let ba ← pyFloat (dictGet kvs "billAmt" (.num (PyNum.ofInt 0)))
      let pa ← pyFloat (dictGet kvs "payableAmount" (.num (PyNum.ofInt 0)))
      pure { month := dictGet kvs "month" (.str "Unknown")
             status := dictGet kvs "status" (.str "Unknown")
             consumed_units := cu
             bill_amount := ba
             payable_amount := pa
             rebate_amount := ba.sub pa })
  | _ => none

/-- The whole loop sensor.py:111-124: dropped items vanish, a fatal item
aborts (propagating to the outer handler). -/
def processItems : List JVal → Option (List Entry)
  | [] => some []
  | it :: rest => do
    let oe ← processItem it
    let es ← processItems rest
    pure (match oe with | some e => e :: es | none => es)

/-- Iteration source of `for item in data.get("meterAnalytics", [])`: an
absent key iterates the
default `[]`; a list iterates its items; a string iterates its characters
(as one-character strings); a dict iterates its keys; `None`, numbers and
booleans raise `TypeError` (modelled `none`, caught by the outer handler). -/
def analyticsItems (kvs : List (String × JVal)) : Option (List JVal) :=
  match List.lookup "meterAnalytics" kvs with
  | none => some []
  | some (.arr xs) => some xs
  | some (.str s) => some (s.data.map (fun c => JVal.str (String.mk [c])))
  | some (.obj kvs') => some (kvs'.map (fun p => JVal.str p.1))
  | some _ => none

/-- The normalized record built at sensor.py:102-109 (all six fields are
populated in a single dict literal). -/
structure Record where
  meter_name : JVal
  consumer_id : JVal
  sc_num : JVal
  total_bill_amount : PyNum
  total_dues_amount : PyNum
  meter_analytics : List Entry

/-- The body of `ElectricityUsageCoordinator._process_data`
(sensor.py:99-135).
`none` models the outer `except Exception: return None` — any error not
handled at a finer grain fails the whole cycle.  The `do`-chain mirrors
the evaluation order of the Python body: the string fields cannot raise,
the two `float(...)` calls on the totals can, then the per-item loop,
then the sort. -/
def processData : JVal → Option Record
  | .obj kvs => do
    let tb ← pyFloat (dictGet kvs "totalBillAmount" (.num (PyNum.ofInt 0)))
    let td ← pyFloat (dictGet kvs "totalDuesAmount" (.num (PyNum.ofInt 0)))
    let items ← analyticsItems kvs
    let es ← processItems items
    let es' ← sortStep es
    pure { meter_name := dictGet kvs "meterName" (.str "Unknown")
           consumer_id := dictGet kvs "consumerId" (.str "Unknown")
           sc_num := dictGet kvs "scNum" (.str "Unknown")
           total_bill_amount := tb
           total_dues_amount := td
           meter_analytics := es' }
  | _ => none

/-- One poll's observable outcome at the transport/HTTP level.
`transport` is an `aiohttp.ClientError` or timeout; `http status body`
is a completed response, with `body = none` when the payload is not
decodable JSON. -/
inductive Resp where
  | transport
  | http (status : Nat) (body : Option JVal)

/-- The body of `ElectricityUsageCoordinator._async_update_data`
(sensor.py:66-97).
Every failure path — transport error, HTTP 401, any other non-200 status,
undecodable body, missing/falsy `data` field, and a `_process_data`
failure — returns the same `None` (here `none`); nothing is raised and no
failure kind is recorded in the result. -/
def asyncUpdateData : Resp → Option Record
  | .transport => none
  | .http status body =>
    if status = 200 then
      match body with
      | none => none
      | some (.obj kvs) =>
        let d := dictGet kvs "data" .null
        if truthy d then processData d else none
      | some _ => none
    else none

/-- Coordinator state: the cached record slot (`self.data`) and the
success flag (`self.last_update_success`). -/
structure CoordState where
  data : Option Record
  lastUpdateSuccess : Bool

/-- Modelled from the host framework: Home Assistant's
`DataUpdateCoordinator._async_refresh` runs `_async_update_data` inside a
`try`; whatever value it RETURNS (including `None`) is stored as
`self.data` and the update is marked successful — only a RAISED exception
leaves `self.data` unchanged and marks the update failed. -/
def coordinatorStore (result : Except Unit (Option Record))
    (st : CoordState) : CoordState :=
  match result with
  | .ok d => { data := d, lastUpdateSuccess := true }
  | .error _ => { st with lastUpdateSuccess := false }

/-- The integration's `_async_update_data` catches every exception itself
and returns `None` instead of raising, so each poll delivers a plain
returned value to the coordinator. -/
def updateResult (resp : Resp) : Except Unit (Option Record) :=
  .ok (asyncUpdateData resp)

/-- One refresh cycle of this integration's coordinator. -/
def refreshCycle (resp : Resp) (st : CoordState) : CoordState :=
  coordinatorStore (updateResult resp) st

/-- The error `async_config_entry_first_refresh` raises when the first
update is marked failed. -/
inductive SetupError where
  | configEntryNotReady
deriving DecidableEq

/-- Modelled from the host framework:
`coordinator.async_config_entry_first_refresh()` performs one refresh and
raises `ConfigEntryNotReady` exactly when `last_update_success` is false
afterwards. -/
def configEntryFirstRefresh (resp : Resp) : Except SetupError CoordState :=
  let st := refreshCycle resp { data := none, lastUpdateSuccess := false }
  if st.lastUpdateSuccess then .ok st else .error .configEntryNotReady

/-- The setup routine `async_setup_entry` (sensor.py:24-49): first
refresh (re-raising any
setup error), then create the six sensor entities only when
`coordinator.data` is truthy (a populated record dict is always truthy;
`None` is not).  The returned number is how many entities were added. -/
def asyncSetupEntry (resp : Resp) : Except SetupError (CoordState × Nat) := do
  let st ← configEntryFirstRefresh resp
  pure (st, match st.data with | some _ => 6 | none => 0)

/-- The consumer view `ElectricityTotalBillSensor.native_value`
(sensor.py:166-171): `None` unless a record is cached. -/
def totalBillNative (st : CoordState) : Option PyNum :=
  match st.data with
  | some r => some r.total_bill_amount
  | none => none

/-- The monthly-entry dict literal of sensor.py:113-120, as a key/value
list (its keys in construction order). -/
def Entry.toDict (e : Entry) : List (String × JVal) :=
  [("month", e.month), ("status", e.status),
   ("consumed_units", .num e.consumed_units),
   ("bill_amount", .num e.bill_amount),
   ("payable_amount", .num e.payable_amount),
   ("rebate_amount", .num e.rebate_amount)]

/-- The record dict literal of sensor.py:102-109, as a key/value list (its
keys in construction order). -/
def Record.toDict (r : Record) : List (String × JVal) :=
  [("meter_name", r.meter_name), ("consumer_id", r.consumer_id),
   ("sc_num", r.sc_num),
   ("total_bill_amount", .num r.total_bill_amount),
   ("total_dues_amount", .num r.total_dues_amount),
   ("meter_analytics", .arr (r.meter_analytics.map (fun e => .obj e.toDict)))]

/-- A monthly entry whose fields beyond `month` are all defaults, as
produced by normalizing the raw item `{"month": s}`. -/
def mkMonthEntry (s : String) : Entry :=
  { month := .str s, status := .str "Unknown",
    consumed_units := ⟨0, 0⟩, bill_amount := ⟨0, 0⟩,
    payable_amount := ⟨0, 0⟩, rebate_amount := ⟨0, 0⟩ }

/-- The entry a raw item contributes to the normalized sequence, when it
contributes one (the per-item handler drops it otherwise). -/
def keptEntry (it : JVal) : Option Entry :=
  match processItem it with
  | some (some e) => some e
  | _ => none

/-- All entries a raw analytics list contributes, in original order (the
loop's output before sorting). -/
def keptEntries (items : List JVal) : List Entry :=
  items.filterMap keptEntry

/-- The record normalized from an empty payload object: every field takes
its default. -/
def emptyRecord : Record :=
  { meter_name := .str "Unknown", consumer_id := .str "Unknown",
    sc_num := .str "Unknown", total_bill_amount := ⟨0, 0⟩,
    total_dues_amount := ⟨0, 0⟩, meter_analytics := [] }

/-- A successful response caching a record with total bill 500. -/
def goodResp : Resp :=
  .http 200 (some (.obj [("data", .obj
    [("meterName", .str "Main"), ("totalBillAmount", .num ⟨500, 0⟩)])]))

/-- The coordinator state before the first refresh. -/
def initCoord : CoordState := { data := none, lastUpdateSuccess := false }

/-- A payload in which only `scNum` (among the five defaulted top-level
fields) is absent: every other field is present with a parseable value. -/
def scAbsentPayload : List (String × JVal) :=
  [("meterName", .str "M"), ("consumerId", .str "C"),
   ("totalBillAmount", .num ⟨5, 0⟩), ("totalDuesAmount", .num ⟨2, 0⟩)]

theorem keyLt_false_le {a b : Int × Nat} (h : keyLt a b = false) :
    keyLe b a = true := by
  simp only [keyLt, Bool.or_eq_false_iff, Bool.and_eq_false_iff,
    decide_eq_false_iff_not] at h
  simp only [keyLe, Bool.or_eq_true, Bool.and_eq_true, decide_eq_true_eq]
  omega

theorem keyLt_true_le {a b : Int × Nat} (h : keyLt a b = true) :
    keyLe a b = true := by
  simp only [keyLt, Bool.or_eq_true, Bool.and_eq_true, decide_eq_true_eq] at h
  simp only [keyLe, Bool.or_eq_true, Bool.and_eq_true, decide_eq_true_eq]
  omega

theorem keyLe_trans {a b c : Int × Nat} (h₁ : keyLe a b = true)
    (h₂ : keyLe b c = true) : keyLe a c = true := by
  simp only [keyLe, Bool.or_eq_true, Bool.and_eq_true, decide_eq_true_eq] at *
  omega

theorem perm_insertByKey {α : Type} (k : α → Int × Nat) (x : α)
    (l : List α) : List.Perm (insertByKey k x l) (x :: l) := by
  induction l with
  | nil => exact List.Perm.refl _
  | cons y ys ih =>
    simp only [insertByKey]
    split
    · exact (ih.cons y).trans (List.Perm.swap x y ys)
    · exact List.Perm.refl _

theorem perm_sortByKey {α : Type} (k : α → Int × Nat) (l : List α) :
    List.Perm (sortByKey k l) l := by
  induction l with
  | nil => exact List.Perm.refl _
  | cons x xs ih => exact (perm_insertByKey k x _).trans (ih.cons x)

theorem pairwise_insertByKey {α : Type} (k : α → Int × Nat) (x : α)
    (l : List α)
    (h : List.Pairwise (fun a b => keyLe (k a) (k b) = true) l) :
    List.Pairwise (fun a b => keyLe (k a) (k b) = true) (insertByKey k x l) := by
  induction l with
  | nil => simp [insertByKey]
  | cons y ys ih =>
    rcases List.pairwise_cons.mp h with ⟨hy, hys⟩
    simp only [insertByKey]
    split
    case isTrue hlt =>
      refine List.pairwise_cons.mpr ⟨?_, ih hys⟩
      intro z hz
      rcases List.mem_cons.mp ((perm_insertByKey k x ys).mem_iff.mp hz) with
        rfl | hz'
      · exact keyLt_true_le hlt
      · exact hy z hz'
    case isFalse hlt =>
      refine List.pairwise_cons.mpr ⟨?_, h⟩
      intro z hz
      rcases List.mem_cons.mp hz with rfl | hz'
      · exact keyLt_false_le (Bool.eq_false_iff.mpr hlt)
      · exact keyLe_trans (keyLt_false_le (Bool.eq_false_iff.mpr hlt)) (hy z hz')

theorem pairwise_sortByKey {α : Type} (k : α → Int × Nat) (l : List α) :
    List.Pairwise (fun a b => keyLe (k a) (k b) = true) (sortByKey k l) := by
  induction l with
  | nil => exact List.Pairwise.nil
  | cons x xs ih => exact pairwise_insertByKey k x _ ih

theorem filter_insertByKey_eq {α : Type} (k : α → Int × Nat) (c : Int × Nat)
    (x : α) (l : List α) (hx : k x = c) :
    (insertByKey k x l).filter (fun y => decide (k y = c)) =
      x :: l.filter (fun y => decide (k y = c)) := by
  induction l with
  | nil => simp [insertByKey, hx]
  | cons y ys ih =>
    simp only [insertByKey]
    split
    case isTrue hlt =>
      have hy : ¬ k y = c := by
        intro hc
        rw [hc, ← hx] at hlt
        simp only [keyLt, Bool.or_eq_true, Bool.and_eq_true,
          decide_eq_true_eq] at hlt
        omega
      have hpy : (decide (k y = c)) = false := decide_eq_false hy
      simp [List.filter_cons, hpy, ih]
    case isFalse hlt =>
      simp [List.filter_cons, hx]

theorem filter_insertByKey_ne {α : Type} (k : α → Int × Nat) (c : Int × Nat)
    (x : α) (l : List α) (hx : ¬ k x = c) :
    (insertByKey k x l).filter (fun y => decide (k y = c)) =
      l.filter (fun y => decide (k y = c)) := by
  induction l with
  | nil => simp [insertByKey, hx]
  | cons y ys ih =>
    simp only [insertByKey]
    split
    · simp only [List.filter_cons, ih]
    · simp [List.filter_cons, hx]

theorem filter_sortByKey {α : Type} (k : α → Int × Nat) (c : Int × Nat)
    (l : List α) :
    (sortByKey k l).filter (fun y => decide (k y = c)) =
      l.filter (fun y => decide (k y = c)) := by
  induction l with
  | nil => rfl
  | cons x xs ih =>
    by_cases hx : k x = c
    · rw [sortByKey, filter_insertByKey_eq k c x _ hx, ih]
      simp [List.filter_cons, hx]
    · rw [sortByKey, filter_insertByKey_ne k c x _ hx, ih]
      simp [List.filter_cons, hx]

theorem sortStep_eq_of_keys (l : List Entry)
    (h : ∀ e ∈ l, (sortKey e.month).isSome) :
    sortStep l = some (sortByKey entryKey l) := by
  cases l with
  | nil => rfl
  | cons x xs =>
    have hall : (x :: xs).all (fun e => (sortKey e.month).isSome) = true :=
      List.all_eq_true.mpr (fun e he => h e he)
    simp [sortStep, hall]

theorem processItems_eq_of_objs (items : List JVal)
    (hobj : ∀ it ∈ items, ∃ ikvs, it = JVal.obj ikvs) :
    processItems items = some (keptEntries items) := by
  induction items with
  | nil => rfl
  | cons it rest ih =>
    obtain ⟨ikvs, rfl⟩ := hobj it (List.mem_cons_self it rest)
    have hrest := ih (fun x hx => hobj x (List.mem_cons_of_mem _ hx))
    obtain ⟨oe, hoe⟩ : ∃ oe, processItem (JVal.obj ikvs) = some oe := ⟨_, rfl⟩
    simp only [processItems, hoe, hrest, Option.some_bind, keptEntries,
      List.filterMap_cons, keptEntry]
    cases oe <;> simp [keptEntries]

/-- C1 (evaluating the code at the failing input): after a successful poll
has cached a record with total bill 500, a transport-error cycle replaces
the cached record with `none`, the bill sensor's reported value resets
from 500 to `None`, and the cycle is even marked successful — the
previously cached record is not preserved. -/
theorem c1_failure_wipes_cache :
    totalBillNative (refreshCycle goodResp initCoord) = some ⟨500, 0⟩ ∧
    (refreshCycle .transport (refreshCycle goodResp initCoord)).data = none ∧
    totalBillNative (refreshCycle .transport
      (refreshCycle goodResp initCoord)) = none ∧
    (refreshCycle .transport
      (refreshCycle goodResp initCoord)).lastUpdateSuccess = true :=
  ⟨rfl, rfl, rfl, rfl⟩

/-- C2 counterexample: HTTP 401 and HTTP 200 with `data: null` produce the
very same outcome `none` — the code returns one untagged `None` for every
failure, so the two failure kinds are not distinguishable from each
other, refuting the claimed distinct tagged kinds. -/
theorem c2_counterexample :
    asyncUpdateData (.http 401 (some (.obj [("data",
        .obj [("meterName", .str "M")])]))) =
      asyncUpdateData (.http 200 (some (.obj [("data", .null)]))) ∧
    asyncUpdateData (.http 401 (some (.obj [("data",
        .obj [("meterName", .str "M")])]))) = none :=
  ⟨rfl, rfl⟩

/-- C2 (amended): every failed response — transport error, HTTP 401, any
other non-200 status, an undecodable body, and a missing/falsy `data`
field — yields the same untagged `none`; a failure is distinguishable
from a successful record (`some`) but the failure kinds are not
distinguishable from each other. -/
theorem c2_failures_untagged :
    asyncUpdateData .transport = none ∧
    (∀ status : Nat, ∀ body : Option JVal, status ≠ 200 →
      asyncUpdateData (.http status body) = none) ∧
    (∀ kvs : List (String × JVal),
      truthy (dictGet kvs "data" .null) = false →
      asyncUpdateData (.http 200 (some (.obj kvs))) = none) ∧
    asyncUpdateData (.http 200 none) = none ∧
    (asyncUpdateData (.http 200 (some (.obj [("data",
      .obj [("meterName", .str "M")])])))).isSome = true := by
  refine ⟨rfl, fun status body h => ?_, fun kvs h => ?_, rfl, rfl⟩
  · simp [asyncUpdateData, h]
  · simp [asyncUpdateData, h]

theorem c2_witness :
    asyncUpdateData (.http 404 (some (.obj []))) = none ∧
    asyncUpdateData (.http 200 (some (.obj [("data", .bool false)]))) = none :=
  ⟨c2_failures_untagged.2.1 404 (some (.obj [])) (by decide),
   c2_failures_untagged.2.2.1 [("data", .bool false)] rfl⟩

/-- C3 (evaluating the code at the failing input): a transport error on the
very first poll does not propagate out of setup — the update method
returns `None` instead of raising, so the first refresh reports success,
`async_setup_entry` completes normally creating zero entities; and after
a successful first poll a later failure, while indeed not raising, does
not preserve the last good record (the cache becomes `none`). -/
theorem c3_first_poll_failure_not_raised :
    configEntryFirstRefresh .transport =
      .ok { data := none, lastUpdateSuccess := true } ∧
    asyncSetupEntry .transport =
      .ok ({ data := none, lastUpdateSuccess := true }, 0) ∧
    (refreshCycle goodResp initCoord).data.isSome = true ∧
    (refreshCycle .transport (refreshCycle goodResp initCoord)).data = none :=
  ⟨rfl, rfl, rfl, rfl⟩

/-- C4: for every monthly-analytics entry list all of whose sort keys
compute, the sorting step succeeds and returns exactly the stable
ascending sort by the key (two-digit year, month index in the Nepali
calendar): the result is pairwise ordered by the key, a permutation of
the input, and entries with any given key keep their original relative
order (stability); a month string containing no '/' gets key (0, 0); and
the spec's example ["Chaitra/80", "Baisakh/81", "Poush/80"] sorts to
["Poush/80", "Chaitra/80", "Baisakh/81"]. -/
theorem c4_sort_ascending_stable :
    (∀ l : List Entry, (∀ e ∈ l, (sortKey e.month).isSome) →
      sortStep l = some (sortByKey entryKey l) ∧
      List.Pairwise (fun a b => keyLe (entryKey a) (entryKey b) = true)
        (sortByKey entryKey l) ∧
      List.Perm (sortByKey entryKey l) l ∧
      (∀ c : Int × Nat,
        (sortByKey entryKey l).filter (fun e => decide (entryKey e = c)) =
          l.filter (fun e => decide (entryKey e = c)))) ∧
    (∀ s : String, s.data.any (fun ch => ch == '/') = false →
      sortKey (.str s) = some (0, 0)) ∧
    sortStep [mkMonthEntry "Chaitra/80", mkMonthEntry "Baisakh/81",
        mkMonthEntry "Poush/80"] =
      some [mkMonthEntry "Poush/80", mkMonthEntry "Chaitra/80",
        mkMonthEntry "Baisakh/81"] := by
  refine ⟨fun l h => ⟨sortStep_eq_of_keys l h, pairwise_sortByKey _ _,
    perm_sortByKey _ _, fun c => filter_sortByKey _ c l⟩,
    fun s hs => ?_, by rfl⟩
  simp [sortKey, pySlashTest, hs]

theorem c4_witness :
    sortStep [mkMonthEntry "Poush/80", mkMonthEntry "Unknown"] =
      some (sortByKey entryKey
        [mkMonthEntry "Poush/80", mkMonthEntry "Unknown"]) ∧
    sortKey (.str "Unknown") = some (0, 0) := by
  refine ⟨(c4_sort_ascending_stable.1
      [mkMonthEntry "Poush/80", mkMonthEntry "Unknown"] ?_).1,
    c4_sort_ascending_stable.2.1 "Unknown" (by rfl)⟩
  intro e he
  rcases List.mem_cons.mp he with rfl | he
  · rfl
  · rcases List.mem_singleton.mp he with rfl
    rfl

/-- C5: whenever the top-level numeric fields parse, the raw analytics list
is a list of dicts, and every retained entry's sort key computes, the
cycle succeeds and the normalized sequence is exactly (the sorted
rearrangement of) the entries that pass numeric parsing: an entry whose
numeric parse fails is excluded, every other entry remains present, and
the malformed entries never abort the cycle. -/
theorem c5_malformed_entries_dropped
    (kvs : List (String × JVal)) (items : List JVal)
    (htb : (pyFloat (dictGet kvs "totalBillAmount"
      (.num (PyNum.ofInt 0)))).isSome)
    (htd : (pyFloat (dictGet kvs "totalDuesAmount"
      (.num (PyNum.ofInt 0)))).isSome)
    (hitems : List.lookup "meterAnalytics" kvs = some (.arr items))
    (hobj : ∀ it ∈ items, ∃ ikvs, it = JVal.obj ikvs)
    (hkeys : ∀ e ∈ keptEntries items, (sortKey e.month).isSome) :
    ∃ r : Record, processData (.obj kvs) = some r ∧
      List.Perm r.meter_analytics (keptEntries items) ∧
      r.meter_analytics = sortByKey entryKey (keptEntries items) := by
  obtain ⟨tb, htb'⟩ := Option.isSome_iff_exists.mp htb
  obtain ⟨td, htd'⟩ := Option.isSome_iff_exists.mp htd
  have hai : analyticsItems kvs = some items := by
    simp [analyticsItems, hitems]
  have hpi := processItems_eq_of_objs items hobj
  have hsort := sortStep_eq_of_keys (keptEntries items) hkeys
  refine ⟨{ meter_name := dictGet kvs "meterName" (.str "Unknown"),
            consumer_id := dictGet kvs "consumerId" (.str "Unknown"),
            sc_num := dictGet kvs "scNum" (.str "Unknown"),
            total_bill_amount := tb, total_dues_amount := td,
            meter_analytics := sortByKey entryKey (keptEntries items) },
    ?_, perm_sortByKey _ _, rfl⟩
  simp [processData, htb', htd', hai, hpi, hsort]

theorem c5_witness :
    ∃ r : Record, processData (.obj [("meterAnalytics", .arr
      [.obj [("month", .str "Poush/80")],
       .obj [("consumedUnits", .str "x")]])]) = some r ∧
      List.Perm r.meter_analytics (keptEntries
        [.obj [("month", .str "Poush/80")],
         .obj [("consumedUnits", .str "x")]]) ∧
      r.meter_analytics = sortByKey entryKey (keptEntries
        [.obj [("month", .str "Poush/80")],
         .obj [("consumedUnits", .str "x")]]) := by
  refine c5_malformed_entries_dropped _ _ (by rfl) (by rfl) rfl ?_ ?_
  · intro it hit
    rcases List.mem_cons.mp hit with rfl | hit
    · exact ⟨_, rfl⟩
    · rcases List.mem_singleton.mp hit with rfl
      exact ⟨_, rfl⟩
  · intro e he
    have hk : keptEntries [JVal.obj [("month", .str "Poush/80")],
        .obj [("consumedUnits", .str "x")]] = [mkMonthEntry "Poush/80"] := rfl
    rw [hk] at he
    rcases List.mem_singleton.mp he with rfl
    rfl

/-- C6 counterexample: with `totalBillAmount` present but unparseable the
whole cycle fails (`_process_data` returns `None`) instead of producing a
record with the field defaulted to 0 — refuting the claim that the
default is substituted when the field is unparseable. -/
theorem c6_counterexample :
    processData (.obj [("totalBillAmount", .str "abc")]) = none :=
  rfl

theorem processData_fields (kvs : List (String × JVal)) (r : Record)
    (h : processData (.obj kvs) = some r) :
    r.meter_name = dictGet kvs "meterName" (.str "Unknown") ∧
    r.consumer_id = dictGet kvs "consumerId" (.str "Unknown") ∧
    r.sc_num = dictGet kvs "scNum" (.str "Unknown") ∧
    pyFloat (dictGet kvs "totalBillAmount" (.num (PyNum.ofInt 0))) =
      some r.total_bill_amount ∧
    pyFloat (dictGet kvs "totalDuesAmount" (.num (PyNum.ofInt 0))) =
      some r.total_dues_amount := by
  cases htb : pyFloat (dictGet kvs "totalBillAmount"
      (.num (PyNum.ofInt 0))) with
  | none => simp [processData, htb] at h
  | some tb =>
    cases htd : pyFloat (dictGet kvs "totalDuesAmount"
        (.num (PyNum.ofInt 0))) with
    | none => simp [processData, htb, htd] at h
    | some td =>
      cases hai : analyticsItems kvs with
      | none => simp [processData, htb, htd, hai] at h
      | some items =>
        cases hpi : processItems items with
        | none => simp [processData, htb, htd, hai, hpi] at h
        | some es =>
          cases hss : sortStep es with
          | none => simp [processData, htb, htd, hai, hpi, hss] at h
          | some es' =>
            simp [processData, htb, htd, hai, hpi, hss] at h
            subst h
            exact ⟨rfl, rfl, rfl, rfl, rfl⟩

/-- C6 (amended): in every successfully normalized record, each of
meter_name, consumer_id and sc_num defaults to "Unknown" whenever that
field alone is absent, and each of total_bill_amount / total_dues_amount
defaults to 0 whenever that field is absent; an all-absent payload
normalizes to the all-defaults record; but a total that is present and
unparseable aborts the whole cycle with a failure rather than being
defaulted (per-entry numeric failures, in contrast, drop only the
entry). -/
theorem c6_defaults_only_when_absent :
    (∀ kvs : List (String × JVal), ∀ r : Record,
      processData (.obj kvs) = some r →
      (List.lookup "meterName" kvs = none →
        r.meter_name = .str "Unknown") ∧
      (List.lookup "consumerId" kvs = none →
        r.consumer_id = .str "Unknown") ∧
      (List.lookup "scNum" kvs = none → r.sc_num = .str "Unknown") ∧
      (List.lookup "totalBillAmount" kvs = none →
        r.total_bill_amount = ⟨0, 0⟩) ∧
      (List.lookup "totalDuesAmount" kvs = none →
        r.total_dues_amount = ⟨0, 0⟩)) ∧
    (∀ kvs : List (String × JVal),
      List.lookup "meterName" kvs = none →
      List.lookup "consumerId" kvs = none →
      List.lookup "scNum" kvs = none →
      List.lookup "totalBillAmount" kvs = none →
      List.lookup "totalDuesAmount" kvs = none →
      List.lookup "meterAnalytics" kvs = none →
      processData (.obj kvs) = some emptyRecord) ∧
    (∀ kvs : List (String × JVal), ∀ v : JVal,
      List.lookup "totalBillAmount" kvs = some v → pyFloat v = none →
      processData (.obj kvs) = none) ∧
    (∀ kvs : List (String × JVal), ∀ v : JVal,
      List.lookup "totalDuesAmount" kvs = some v → pyFloat v = none →
      processData (.obj kvs) = none) := by
  refine ⟨fun kvs r h => ?_, fun kvs h₁ h₂ h₃ h₄ h₅ h₆ => ?_,
    fun kvs v hv hpf => ?_, fun kvs v hv hpf => ?_⟩
  · obtain ⟨hm, hc, hs, hb, hd⟩ := processData_fields kvs r h
    refine ⟨fun ha => ?_, fun ha => ?_, fun ha => ?_, fun ha => ?_,
      fun ha => ?_⟩
    · rw [hm]; simp [dictGet, ha]
    · rw [hc]; simp [dictGet, ha]
    · rw [hs]; simp [dictGet, ha]
    · rw [dictGet, ha] at hb
      simp [pyFloat, PyNum.ofInt] at hb
      exact hb.symm
    · rw [dictGet, ha] at hd
      simp [pyFloat, PyNum.ofInt] at hd
      exact hd.symm
  · simp [processData, dictGet, h₁, h₂, h₃, h₄, h₅, analyticsItems, h₆,
      processItems, sortStep, pyFloat, PyNum.ofInt, emptyRecord]
  · simp [processData, dictGet, hv, hpf]
  · cases hb : pyFloat (dictGet kvs "totalBillAmount"
        (.num (PyNum.ofInt 0))) <;>
      simp [processData, dictGet, hv, hpf, hb]

theorem c6_witness :
    (processData (.obj scAbsentPayload)).map Record.sc_num =
      some (.str "Unknown") ∧
    processData (.obj []) = some emptyRecord ∧
    processData (.obj [("totalDuesAmount", .str "x.y.z")]) = none := by
  refine ⟨?_, c6_defaults_only_when_absent.2.1 [] rfl rfl rfl rfl rfl rfl,
    c6_defaults_only_when_absent.2.2.2 [("totalDuesAmount", .str "x.y.z")]
      (.str "x.y.z") rfl rfl⟩
  have hr : processData (.obj scAbsentPayload) =
      some { meter_name := .str "M", consumer_id := .str "C",
             sc_num := .str "Unknown", total_bill_amount := ⟨5, 0⟩,
             total_dues_amount := ⟨2, 0⟩, meter_analytics := [] } := rfl
  have hs := ((c6_defaults_only_when_absent.1 scAbsentPayload _ hr).2.2.1) rfl
  rw [hr]
  exact congrArg some hs

/-- C7: every fetch outcome is either `none` (a failure) or a fully
populated record whose dict carries exactly the six fields in
construction order — never a partially filled record, so consumers never
observe a partially populated cached state. -/
theorem c7_record_fully_populated :
    ∀ resp : Resp, asyncUpdateData resp = none ∨
      ∃ r : Record, asyncUpdateData resp = some r ∧
        r.toDict.map Prod.fst =
          ["meter_name", "consumer_id", "sc_num", "total_bill_amount",
           "total_dues_amount", "meter_analytics"] := by
  intro resp
  cases h : asyncUpdateData resp with
  | none => exact Or.inl rfl
  | some r => exact Or.inr ⟨r, rfl, rfl⟩

/-- C8: normalization is deterministic — running it twice on the identical
payload yields structurally equal records. -/
theorem c8_normalization_deterministic :
    ∀ d : JVal, ∀ r₁ r₂ : Record,
      processData d = some r₁ → processData d = some r₂ → r₁ = r₂ := by
  intro d r₁ r₂ h₁ h₂
  rw [h₁] at h₂
  exact Option.some.inj h₂

theorem c8_witness : emptyRecord = emptyRecord :=
  c8_normalization_deterministic (.obj []) emptyRecord emptyRecord rfl rfl

/-- C9: a payload whose entry parses numerically but carries the month
"Foo/81" — a '/' with a month name outside the calendar — is retained by
the per-item loop, its sort key fails, and the failure is caught only by
the outer handler: the whole cycle returns `none` instead of dropping or
front-sorting that entry (a non-integer year suffix fails the same way). -/
theorem c9_bad_month_fails_cycle :
    processItem (.obj [("month", .str "Foo/81"),
        ("consumedUnits", .num ⟨7, 0⟩)]) =
      some (some { month := .str "Foo/81", status := .str "Unknown",
                   consumed_units := ⟨7, 0⟩, bill_amount := ⟨0, 0⟩,
                   payable_amount := ⟨0, 0⟩, rebate_amount := ⟨0, 0⟩ }) ∧
    sortKey (.str "Foo/81") = none ∧
    sortKey (.str "Baisakh/8x") = none ∧
    processData (.obj [("meterAnalytics", .arr
      [.obj [("month", .str "Baisakh/81")],
       .obj [("month", .str "Foo/81"),
             ("consumedUnits", .num ⟨7, 0⟩)]])]) = none :=
  ⟨rfl, rfl, rfl, rfl⟩

/-- C10: a monthly entry whose numeric keys are absent is retained with the
absent fields defaulting to 0 and the rebate computed from the (possibly
defaulted) values; an entry is dropped exactly when one of its three
numeric fields fails `float(...)`, and an absent field always parses (to
0), so only present-but-unparseable fields can drop an entry. -/
theorem c10_absent_numeric_defaults :
    (∀ ikvs : List (String × JVal),
      List.lookup "consumedUnits" ikvs = none →
      List.lookup "billAmt" ikvs = none →
      List.lookup "payableAmount" ikvs = none →
      processItem (.obj ikvs) = some (some
        { month := dictGet ikvs "month" (.str "Unknown"),
          status := dictGet ikvs "status" (.str "Unknown"),
          consumed_units := ⟨0, 0⟩, bill_amount := ⟨0, 0⟩,
          payable_amount := ⟨0, 0⟩,
          rebate_amount := PyNum.sub ⟨0, 0⟩ ⟨0, 0⟩ })) ∧
    (∀ ikvs : List (String × JVal),
      processItem (.obj ikvs) = some none ↔
        (pyFloat (dictGet ikvs "consumedUnits" (.num (PyNum.ofInt 0))) = none ∨
         pyFloat (dictGet ikvs "billAmt" (.num (PyNum.ofInt 0))) = none ∨
         pyFloat (dictGet ikvs "payableAmount"
           (.num (PyNum.ofInt 0))) = none)) ∧
    (∀ ikvs : List (String × JVal), ∀ key : String,
      key ∈ ["consumedUnits", "billAmt", "payableAmount"] →
      List.lookup key ikvs = none →
      pyFloat (dictGet ikvs key (.num (PyNum.ofInt 0))) = some ⟨0, 0⟩) := by
  refine ⟨fun ikvs h₁ h₂ h₃ => ?_, fun ikvs => ?_, fun ikvs key hk h => ?_⟩
  · simp [processItem, dictGet, h₁, h₂, h₃, pyFloat, PyNum.ofInt]
  · cases hcu : pyFloat (dictGet ikvs "consumedUnits"
        (.num (PyNum.ofInt 0))) <;>
    cases hba : pyFloat (dictGet ikvs "billAmt" (.num (PyNum.ofInt 0))) <;>
    cases hpa : pyFloat (dictGet ikvs "payableAmount"
        (.num (PyNum.ofInt 0))) <;>
      simp [processItem, hcu, hba, hpa]
  · rcases List.mem_cons.mp hk with rfl | hk
    · simp [dictGet, h, pyFloat, PyNum.ofInt]
    · rcases List.mem_cons.mp hk with rfl | hk
      · simp [dictGet, h, pyFloat, PyNum.ofInt]
      · rcases List.mem_singleton.mp hk with rfl
        simp [dictGet, h, pyFloat, PyNum.ofInt]

theorem c10_witness :
    processItem (.obj [("month", .str "Magh/80")]) = some (some
      { month := dictGet [("month", .str "Magh/80")] "month" (.str "Unknown"),
        status := dictGet [("month", .str "Magh/80")] "status"
          (.str "Unknown"),
        consumed_units := ⟨0, 0⟩, bill_amount := ⟨0, 0⟩,
        payable_amount := ⟨0, 0⟩,
        rebate_amount := PyNum.sub ⟨0, 0⟩ ⟨0, 0⟩ }) :=
  c10_absent_numeric_defaults.1 [("month", .str "Magh/80")] rfl rfl rfl
